import Mathlib

/-!
Verification development for the rag-next-demo retrieval-augmented-generation
pipeline.  The definitions below are a shallow embedding of the TypeScript
source: the retrieval tool of `createChromaDBTool` (agent-tools), the plain
RAG pipeline `executeRAG` (lib/rag.ts), the debug listing `debugChromaDB`
(debug/vectorstore route), the assistant polling loop of
`createOpenAIAssistantTool`, and the tag handling of the ingest route.
Distance scores are modelled as rationals; decimal literals of the source
such as 0.3, 0.5, 0.8 and 1.2 are written with `mkRat` so that all
definitions evaluate by kernel reduction.
-/

/-- Embedding of the JavaScript `String.prototype.startsWith` check on
character lists: `charsStartWith pat cs` is true when `pat` is an initial
segment of `cs`. -/
def charsStartWith : List Char → List Char → Bool
  | [], _ => true
  | _ :: _, [] => false
  | c :: cs, d :: ds => c == d && charsStartWith cs ds

/-- Embedding of the JavaScript `String.prototype.includes` search on
character lists: true when `pat` occurs contiguously inside the text. -/
def charsContain (pat : List Char) : List Char → Bool
  | [] => charsStartWith pat []
  | d :: ds => charsStartWith pat (d :: ds) || charsContain pat ds

/-- JavaScript `s.includes(pat)` on Lean strings. -/
def jsIncludes (s pat : String) : Bool := charsContain pat.data s.data

/-- Worker for JavaScript `s.split(",")`: accumulates the current field in
`acc` (reversed) and emits a field at every comma. -/
def splitCommaAux : List Char → List Char → List (List Char)
  | [], acc => [acc.reverse]
  | c :: cs, acc =>
    if c == ',' then acc.reverse :: splitCommaAux cs []
    else splitCommaAux cs (c :: acc)

/-- JavaScript `s.split(",")` (the separator used by the source for tags). -/
def jsSplitComma (s : String) : List String :=
  (splitCommaAux s.data []).map (fun cs => String.mk cs)

/-- JavaScript `array.join(",")`, as used by the ingest route for tags. -/
def jsJoinComma : List String → String
  | [] => ""
  | [t] => t
  | t :: ts => t ++ "," ++ jsJoinComma ts

/-- The source's guarded split `tagsString ? tagsString.split(",") : []`:
an empty (falsy) string yields the empty list, not `[""]`. -/
def jsSplitTags (s : String) : List String :=
  if s = "" then [] else jsSplitComma s

/-- JavaScript falsiness of an optional string field: `undefined`/`null`
and the empty string are falsy. -/
def optFalsy : Option String → Bool
  | none => true
  | some s => s == ""

/-- JavaScript `a || b` on an optional string `a` with string fallback `b`
(used for `doc.metadata.documentName || doc.metadata.source`). -/
def jsOrElse (a : Option String) (b : String) : String :=
  match a with
  | none => b
  | some s => if s == "" then b else s

/-- A stored chunk as the retrieval tool reads it from the vector store:
page content plus the metadata fields consulted by `createChromaDBTool`.
`tags` is the comma-separated string the ingest route wrote (or absent). -/
structure StoredDoc where
  pageContent : String
  source : String
  documentName : Option String
  category : String
  department : Option String
  documentType : String
  tags : Option String
  chunkIndex : Nat
  timestamp : String
  deriving DecidableEq

/-- The source's reconstruction of a chunk's tag list from its stored
comma-separated string: `(doc.metadata.tags || "")` split on commas when
non-empty, else the empty list. -/
def docTags (d : StoredDoc) : List String :=
  jsSplitTags (d.tags.getD (""))

/-- Input of the `search_chromadb` tool after zod parsing: the query plus
the nullable filter fields of the schema. -/
structure ChromaParams where
  query : String
  k : Option Nat
  scoreThreshold : Option ℚ
  category : Option String
  documentType : Option String
  tags : Option (List String)
  deriving DecidableEq

/-- Default for `scoreThreshold` declared in the zod input schema
(`.default(1.2)` in the source). -/
def schemaScoreThresholdDefault : ℚ := mkRat 12 10

/-- Fallback the tool function applies when `scoreThreshold` is null
(`scoreThreshold ?? 0.8` in the source). -/
def funcScoreThresholdFallback : ℚ := mkRat 8 10

/-- Fallback the tool function applies when `k` is null (`k ?? 4`). -/
def funcKFallback : Nat := 4

/-- The result count the tool function actually uses (`k ?? 4`). -/
def appliedK (p : ChromaParams) : Nat := p.k.getD funcKFallback

/-- The score threshold the tool function actually uses
(`scoreThreshold ?? 0.8`). -/
def appliedThreshold (p : ChromaParams) : ℚ :=
  p.scoreThreshold.getD funcScoreThresholdFallback

/-- Number of candidates requested from the vector store
(`resultCount * 3` in the source, to over-fetch before filtering). -/
def chromaFetchCount (p : ChromaParams) : Nat := appliedK p * 3

/-- The score-threshold filter step of the tool:
`docsWithScores.filter(([_doc, score]) => score <= threshold)`. -/
def scoreFilter (t : ℚ) (cands : List (StoredDoc × ℚ)) : List (StoredDoc × ℚ) :=
  cands.filter (fun ds => decide (ds.2 ≤ t))

/-- The combined document predicate of the tool's second filter: drops the
init sentinel, test data and orphaned uploads, then applies the category,
documentType and tags predicates exactly as the early returns in the
source do. -/
def passDocFilters (p : ChromaParams) (d : StoredDoc) : Bool :=
  !(d.source == "init" || jsIncludes d.source ("test-sample")
      || (d.source == "user_upload" && optFalsy d.documentName)) &&
  (match p.category with
   | some c => c == "" || d.category == c
   | none => true) &&
  (match p.documentType with
   | some ty => ty == "" || d.documentType == ty
   | none => true) &&
  (match p.tags with
   | some ts => ts.isEmpty || ts.any (fun tag => (docTags d).contains tag)
   | none => true)

/-- The candidate pipeline of the tool body: score filter, then metadata
filter, then `.slice(0, resultCount)`. -/
def pipelineDocs (p : ChromaParams) (cands : List (StoredDoc × ℚ)) :
    List (StoredDoc × ℚ) :=
  ((scoreFilter (appliedThreshold p) cands).filter
      (fun ds => passDocFilters p ds.1)).take (appliedK p)

/-- Relevance tier attached to each surviving chunk:
`score <= 0.3 ? "high" : score <= 0.5 ? "medium" : "low"`. -/
def relevanceTier (score : ℚ) : String :=
  if score ≤ mkRat 3 10 then "high"
  else if score ≤ mkRat 5 10 then "medium"
  else "low"

/-- One formatted result record of the tool's JSON answer. -/
structure ResultEntry where
  rank : Nat
  content : String
  documentName : String
  source : String
  category : String
  department : Option String
  documentType : String
  tags : List String
  chunkIndex : Nat
  timestamp : String
  similarityScore : ℚ
  relevance : String
  deriving DecidableEq

/-- Formatting of one surviving candidate at position `idx`
(`rank: idx + 1`, tags split back into an array, relevance tier). -/
def formatResult (idx : Nat) (ds : StoredDoc × ℚ) : ResultEntry :=
  { rank := idx + 1
    content := ds.1.pageContent
    documentName := jsOrElse ds.1.documentName ds.1.source
    source := ds.1.source
    category := ds.1.category
    department := ds.1.department
    documentType := ds.1.documentType
    tags := docTags ds.1
    chunkIndex := ds.1.chunkIndex
    timestamp := ds.1.timestamp
    similarityScore := ds.2
    relevance := relevanceTier ds.2 }

/-- The indexed map `filteredDocs.map(([doc, score], idx) => ...)`. -/
def formatResults : Nat → List (StoredDoc × ℚ) → List ResultEntry
  | _, [] => []
  | i, ds :: rest => formatResult i ds :: formatResults (i + 1) rest

/-- The `filtersApplied` object returned with an empty result. -/
structure AppliedFilters where
  category : Option String
  documentType : Option String
  tags : Option (List String)
  scoreThreshold : ℚ
  deriving DecidableEq

/-- The serialized result envelope of the tool: the empty-result object,
the found-results object, or the catch-branch error string. -/
inductive ToolOutput where
  | empty (message : String) (filtersApplied : AppliedFilters)
  | found (count : Nat) (scoreThreshold : Option ℚ) (category : Option String)
      (documentType : Option String) (tags : Option (List String))
      (results : List ResultEntry)
  | failure (message : String)
  deriving DecidableEq

/-- The fixed message accompanying an empty retrieval result. -/
def noDocsMessage : String :=
  "No relevant documents found in ChromaDB matching the criteria."

/-- The tool body applied to the candidate list fetched from the store. -/
def processCandidates (p : ChromaParams) (cands : List (StoredDoc × ℚ)) :
    ToolOutput :=
  let filteredDocs := pipelineDocs p cands
  if filteredDocs.isEmpty then
    ToolOutput.empty noDocsMessage
      { category := p.category, documentType := p.documentType,
        tags := p.tags, scoreThreshold := appliedThreshold p }
  else
    let results := formatResults 0 filteredDocs
    ToolOutput.found results.length p.scoreThreshold p.category
      p.documentType p.tags results

/-- The whole `search_chromadb` tool function: fetch `resultCount * 3`
candidates with `similaritySearchWithScore`, then run the filter pipeline.
The store is the external similarity-search oracle
`(query, k) -> scored docs`. -/
def chromaTool (store : String → Nat → List (StoredDoc × ℚ))
    (p : ChromaParams) : ToolOutput :=
  processCandidates p (store p.query (chromaFetchCount p))

/-- The result list carried by a tool output (empty for the empty and
error envelopes). -/
def toolResults : ToolOutput → List ResultEntry
  | ToolOutput.found _ _ _ _ _ rs => rs
  | _ => []

/-- A document as the plain RAG pipeline of lib/rag.ts reads it: page
content plus the `source` metadata field it filters on. -/
structure RagDoc where
  pageContent : String
  source : String
  deriving DecidableEq

/-- Answer and sources returned by `executeRAG`. -/
structure RagResult where
  answer : String
  sources : List RagDoc
  deriving DecidableEq

/-- The fixed refusal answer of `executeRAG` when no documents remain
after dropping the initialization chunk. -/
def noDocsAnswer : String :=
  "I don\x27t have any documents to answer that question."

/-- The numbered context lines built from the retrieved documents
(the map producing the strings joined by blank lines). -/
def numberContext : Nat → List RagDoc → List String
  | _, [] => []
  | i, d :: rest =>
    ("[" ++ toString (i + 1) ++ "] " ++ d.pageContent) :: numberContext (i + 1) rest

/-- Embedding of `executeRAG` from lib/rag.ts.  `search` is the external
`similaritySearch` oracle and `llm` the external chain invocation
`(context, question) -> answer`.  The second component counts LLM
invocations performed by the call. -/
def executeRAG (search : String → Nat → List RagDoc)
    (llm : String → String → String) (query : String) : RagResult × Nat :=
  let relevantDocs := search query 4
  let filteredDocs := relevantDocs.filter (fun d => !(d.source == "init"))
  if filteredDocs.isEmpty then
    ({ answer := noDocsAnswer, sources := [] }, 0)
  else
    let context := String.intercalate ("\n\n") (numberContext 0 filteredDocs)
    ({ answer := llm context query, sources := filteredDocs }, 1)

/-- A raw collection record as the debug endpoint reads it from ChromaDB:
an id, the document text, and the `source` metadata field, which may be
absent (`doc.metadata?.source`). -/
structure RawStoreDoc where
  id : String
  content : String
  msource : Option String
  deriving DecidableEq

/-- The response body of the debug listing. -/
structure DebugListing where
  totalCount : Nat
  documentsShown : Nat
  documents : List RawStoreDoc
  deriving DecidableEq

/-- Embedding of `debugChromaDB` from the debug/vectorstore route:
`totalCount` is the raw `collection.count()`, the shown documents are the
first 100 records with the init sentinel filtered out, and
`documentsShown` is the length of that filtered list. -/
def debugChromaDB (store : List RawStoreDoc) : DebugListing :=
  let count := store.length
  let results := store.take 100
  let documents := results.filter (fun d => !(d.msource == some ("init")))
  { totalCount := count, documentsShown := documents.length,
    documents := documents }

/-- Status of an OpenAI Assistant run as polled by the secondary tool. -/
inductive RunStatus where
  | completed
  | failed
  | cancelled
  | expired
  | queued
  | inProgress
  deriving DecidableEq

/-- The API's status string for each run status. -/
def statusText : RunStatus → String
  | RunStatus.completed => "completed"
  | RunStatus.failed => "failed"
  | RunStatus.cancelled => "cancelled"
  | RunStatus.expired => "expired"
  | RunStatus.queued => "queued"
  | RunStatus.inProgress => "in_progress"

/-- The statuses on which the loop returns the run-failed message
(`failed`, `cancelled`, `expired`). -/
def isTerminalFailure : RunStatus → Bool
  | RunStatus.failed => true
  | RunStatus.cancelled => true
  | RunStatus.expired => true
  | _ => false

/-- Outcome of the polling loop of `createOpenAIAssistantTool`. -/
inductive AssistantOutcome where
  | failedRun (st : RunStatus)
  | timedOut
  | completedRun
  deriving DecidableEq

/-- The polling loop.  `stream n` is the status observed by the n-th
`runs.retrieve` call (`stream 0` is the retrieve before the loop);
`fuel` is `maxAttempts - attempts`.  The loop exits when the status is
`completed` or the attempt budget is exhausted; inside the loop a
terminal-failure status returns early; otherwise it sleeps one unit,
retrieves the next status and increments `attempts`.  The second
component counts the in-loop retrieve calls (poll attempts). -/
def assistantLoop (stream : Nat → RunStatus) :
    Nat → Nat → AssistantOutcome × Nat
  | i, 0 =>
    if stream i = RunStatus.completed then (AssistantOutcome.completedRun, 0)
    else (AssistantOutcome.timedOut, 0)
  | i, fuel + 1 =>
    if stream i = RunStatus.completed then (AssistantOutcome.completedRun, 0)
    else if isTerminalFailure (stream i) then
      (AssistantOutcome.failedRun (stream i), 0)
    else
      let r := assistantLoop stream (i + 1) fuel
      (r.1, r.2 + 1)

/-- The hard attempt bound of the loop (`maxAttempts = 30`). -/
def maxPollAttempts : Nat := 30

/-- The whole polling phase of the tool, starting from the initial
retrieve with the full attempt budget. -/
def runAssistantTool (stream : Nat → RunStatus) : AssistantOutcome × Nat :=
  assistantLoop stream 0 maxPollAttempts

/-- The fixed timeout message the tool returns when the run never
completes within the attempt budget. -/
def timeoutMessage : String :=
  "OpenAI Assistant took too long to respond (timeout after 30 seconds)"

/-- The run-failed message (`OpenAI Assistant run failed with status: x`). -/
def runFailedMessage (st : RunStatus) : String :=
  "OpenAI Assistant run failed with status: " ++ statusText st

/-- What the tool function returns for each loop outcome: the failure and
timeout paths return message strings (never exceptions); the completed
path goes on to read the thread messages. -/
inductive AssistantReply where
  | message (text : String)
  | completedAnswer
  deriving DecidableEq

/-- The tool's returned value as a function of the observed status
stream, paired with the number of poll attempts performed. -/
def assistantToolReply (stream : Nat → RunStatus) : AssistantReply × Nat :=
  match runAssistantTool stream with
  | (AssistantOutcome.failedRun st, n) => (AssistantReply.message (runFailedMessage st), n)
  | (AssistantOutcome.timedOut, n) => (AssistantReply.message timeoutMessage, n)
  | (AssistantOutcome.completedRun, n) => (AssistantReply.completedAnswer, n)

/-- The ingest route's serialization of the supplied tag list:
`Array.isArray(tags) ? tags.join(",") : ""`. -/
def ingestTagsString (tags : Option (List String)) : String :=
  match tags with
  | some l => jsJoinComma l
  | none => ""

/-- Sample stored chunk used to instantiate the theorems below. -/
def wDoc : StoredDoc :=
  { pageContent := "hello", source := "doc.txt", documentName := some ("Doc"),
    category := "Technology", department := none, documentType := "report",
    tags := none, chunkIndex := 0, timestamp := "" }

/-- Sample tool input with an explicit threshold of 1 and k = 1. -/
def wParams : ChromaParams :=
  { query := "q", k := some 1, scoreThreshold := some 1, category := none,
    documentType := none, tags := none }

/-- Sample store oracle answering every query with one chunk at score 1. -/
def wStore : String → Nat → List (StoredDoc × ℚ) := fun _ _ => [(wDoc, 1)]

/-- The formatted record the tool produces for `wDoc` at score 1. -/
def wEntry : ResultEntry :=
  { rank := 1, content := "hello", documentName := "Doc", source := "doc.txt",
    category := "Technology", department := none, documentType := "report",
    tags := [], chunkIndex := 0, timestamp := "", similarityScore := 1,
    relevance := "low" }

/-- Sample stored chunk carrying category, type and a tag string. -/
def w2Doc : StoredDoc :=
  { pageContent := "Chunk text", source := "doc.txt",
    documentName := some ("Doc"), category := "Technology",
    department := none, documentType := "report", tags := some ("x,y"),
    chunkIndex := 0, timestamp := "" }

/-- Sample tool input with all three metadata filters supplied. -/
def w2Params : ChromaParams :=
  { query := "q", k := some 1, scoreThreshold := some 1,
    category := some ("Technology"), documentType := some ("report"),
    tags := some ["x"] }

/-- Sample store oracle for the metadata-filter instance. -/
def w2Store : String → Nat → List (StoredDoc × ℚ) := fun _ _ => [(w2Doc, 1)]

/-- The formatted record the tool produces for `w2Doc` at score 1. -/
def w2Entry : ResultEntry :=
  { rank := 1, content := "Chunk text", documentName := "Doc",
    source := "doc.txt", category := "Technology", department := none,
    documentType := "report", tags := ["x", "y"], chunkIndex := 0,
    timestamp := "", similarityScore := 1, relevance := "low" }

/-- Store oracle returning no candidates at all. -/
def wEmptyStore : String → Nat → List (StoredDoc × ℚ) := fun _ _ => []

/-- Tool input supplying no threshold (the function fallback applies). -/
def w3Params : ChromaParams :=
  { query := "q", k := none, scoreThreshold := none, category := none,
    documentType := none, tags := none }

/-- The initialization sentinel as a raw collection record. -/
def initRawDoc : RawStoreDoc :=
  { id := "init-0", content := "Initialization document",
    msource := some ("init") }

/-- An ordinary uploaded chunk as a raw collection record. -/
def goodRawDoc : RawStoreDoc :=
  { id := "doc-1", content := "The sky is blue.", msource := some ("doc.txt") }

/-- Search oracle over a store holding only the sentinel chunk. -/
def wSentinelRagSearch : String → Nat → List RagDoc :=
  fun _ _ => [{ pageContent := "Initialization document", source := "init" }]

/-- Search oracle over a store holding one real chunk. -/
def wRagSearch : String → Nat → List RagDoc :=
  fun _ _ => [{ pageContent := "The sky is blue.", source := "doc.txt" }]

/-- Stub LLM invocation used to instantiate the pipeline theorems. -/
def wLlm : String → String → String := fun _ _ => "answer"

/-- Stored chunk whose tag string is the ingested form of two tags. -/
def wTagDoc : StoredDoc :=
  { pageContent := "hello", source := "doc.txt", documentName := some ("Doc"),
    category := "Technology", department := none, documentType := "report",
    tags := some ("a,b"), chunkIndex := 0, timestamp := "" }


/-- Membership in the score-filter step exposes the kept pair and its
threshold bound. -/
theorem mem_scoreFilter {t : ℚ} {cands : List (StoredDoc × ℚ)}
    {ds : StoredDoc × ℚ} (h : ds ∈ scoreFilter t cands) :
    ds ∈ cands ∧ ds.2 ≤ t := by
  have h' := List.mem_filter.mp h
  exact ⟨h'.1, of_decide_eq_true h'.2⟩

/-- Membership in the filtered-and-truncated pipeline exposes the original
candidate, its score bound and the metadata predicate. -/
theorem mem_pipelineDocs {p : ChromaParams} {cands : List (StoredDoc × ℚ)}
    {ds : StoredDoc × ℚ} (h : ds ∈ pipelineDocs p cands) :
    ds ∈ cands ∧ ds.2 ≤ appliedThreshold p ∧ passDocFilters p ds.1 = true := by
  have h1 : ds ∈ (scoreFilter (appliedThreshold p) cands).filter
      (fun ds => passDocFilters p ds.1) :=
    (List.take_sublist _ _).subset h
  have h2 := List.mem_filter.mp h1
  have h3 := mem_scoreFilter h2.1
  exact ⟨h3.1, h3.2, h2.2⟩

/-- Every member of the formatted result list is the formatting of some
member of the underlying candidate list. -/
theorem mem_formatResults :
    ∀ (i : Nat) (L : List (StoredDoc × ℚ)) (r : ResultEntry),
    r ∈ formatResults i L → ∃ j ds, ds ∈ L ∧ r = formatResult j ds := by
  intro i L
  induction L generalizing i with
  | nil => intro r hr; simp [formatResults] at hr
  | cons hd tl ih =>
    intro r hr
    simp only [formatResults, List.mem_cons] at hr
    rcases hr with hr | hr
    · exact ⟨i, hd, List.mem_cons_self hd tl, hr⟩
    · obtain ⟨j, ds, hmem, heq⟩ := ih (i + 1) r hr
      exact ⟨j, ds, List.mem_cons_of_mem hd hmem, heq⟩

/-- Formatting preserves content and score position by position. -/
theorem formatResults_proj :
    ∀ (i : Nat) (L : List (StoredDoc × ℚ)),
    (formatResults i L).map (fun r => (r.content, r.similarityScore)) =
      L.map (fun ds => (ds.1.pageContent, ds.2)) := by
  intro i L
  induction L generalizing i with
  | nil => rfl
  | cons hd tl ih => simp [formatResults, formatResult, ih]

/-- Formatting preserves length. -/
theorem formatResults_length :
    ∀ (i : Nat) (L : List (StoredDoc × ℚ)),
    (formatResults i L).length = L.length := by
  intro i L
  induction L generalizing i with
  | nil => rfl
  | cons hd tl ih => simp [formatResults, ih]

/-- Formatting preserves the score sequence. -/
theorem formatResults_scores :
    ∀ (i : Nat) (L : List (StoredDoc × ℚ)),
    (formatResults i L).map (fun r => r.similarityScore) =
      L.map (fun ds => ds.2) := by
  intro i L
  induction L generalizing i with
  | nil => rfl
  | cons hd tl ih => simp [formatResults, formatResult, ih]

/-- The tool's result list is exactly the formatting of its filter
pipeline, in both the empty and the found branches. -/
theorem toolResults_chromaTool
    (store : String → Nat → List (StoredDoc × ℚ)) (p : ChromaParams) :
    toolResults (chromaTool store p) =
      formatResults 0 (pipelineDocs p (store p.query (chromaFetchCount p))) := by
  show toolResults (processCandidates p _) = _
  unfold processCandidates
  by_cases h : (pipelineDocs p (store p.query (chromaFetchCount p))).isEmpty
  · simp only [h, if_true]
    rw [List.isEmpty_iff.mp h]
    rfl
  · simp only [h, if_false]
    rfl

/-- C1: every chunk in the retrieval tool's result has score at most the
applied threshold (no chunk above the threshold appears), and the score
filter step is an inclusive upper bound: a candidate whose score equals
the threshold passes it. -/
theorem threshold_filter_correct :
    (∀ (store : String → Nat → List (StoredDoc × ℚ)) (p : ChromaParams)
        (r : ResultEntry), r ∈ toolResults (chromaTool store p) →
        r.similarityScore ≤ appliedThreshold p) ∧
    (∀ (t : ℚ) (cands : List (StoredDoc × ℚ)) (ds : StoredDoc × ℚ),
        ds ∈ cands → ds.2 = t → ds ∈ scoreFilter t cands) := by
  constructor
  · intro store p r hr
    rw [toolResults_chromaTool] at hr
    obtain ⟨j, ds, hmem, heq⟩ := mem_formatResults _ _ _ hr
    have hle := (mem_pipelineDocs hmem).2.1
    rw [heq]
    simpa [formatResult] using hle
  · intro t cands ds hmem heq
    exact List.mem_filter.mpr ⟨hmem, decide_eq_true (le_of_eq heq)⟩

/-- Witness for C1 at a one-chunk store whose score equals the supplied
threshold: the chunk is returned and its score is within the bound. -/
theorem threshold_filter_correct_witness :
    wEntry.similarityScore ≤ appliedThreshold wParams ∧
    (wDoc, (1 : ℚ)) ∈ scoreFilter 1 [(wDoc, (1 : ℚ))] :=
  ⟨threshold_filter_correct.1 wStore wParams wEntry (by decide),
   threshold_filter_correct.2 1 [(wDoc, 1)] (wDoc, 1) (by decide) (by decide)⟩

/-- C9: the zod schema default for scoreThreshold (1.2) and the fallback
the tool function applies on a null scoreThreshold (0.8) are distinct
constants, and the function fallback is what the pipeline actually uses
when no threshold is supplied. -/
theorem score_threshold_default_mismatch :
    schemaScoreThresholdDefault ≠ funcScoreThresholdFallback ∧
    ∀ p : ChromaParams, p.scoreThreshold = none →
      appliedThreshold p = funcScoreThresholdFallback := by
  constructor
  · decide
  · intro p h
    simp [appliedThreshold, h]

/-- Witness for C9 at an input with no threshold supplied. -/
theorem score_threshold_default_mismatch_witness :
    appliedThreshold w3Params = funcScoreThresholdFallback :=
  score_threshold_default_mismatch.2 w3Params rfl

/-- C8: when the filter pipeline eliminates every candidate the tool
returns the empty envelope carrying the applied filter parameters
(category, documentType, tags and the applied score threshold), and the
tool never produces the error envelope. -/
theorem empty_result_not_error :
    (∀ (store : String → Nat → List (StoredDoc × ℚ)) (p : ChromaParams),
      pipelineDocs p (store p.query (chromaFetchCount p)) = [] →
      chromaTool store p = ToolOutput.empty noDocsMessage
        { category := p.category, documentType := p.documentType,
          tags := p.tags, scoreThreshold := appliedThreshold p }) ∧
    (∀ (store : String → Nat → List (StoredDoc × ℚ)) (p : ChromaParams)
        (msg : String), chromaTool store p ≠ ToolOutput.failure msg) := by
  constructor
  · intro store p h
    show processCandidates p _ = _
    unfold processCandidates
    simp [h]
  · intro store p msg
    show processCandidates p _ ≠ _
    unfold processCandidates
    by_cases h : (pipelineDocs p (store p.query (chromaFetchCount p))).isEmpty
    · simp [h]
    · simp [h]

/-- Witness for C8 at a store that returns no candidates. -/
theorem empty_result_not_error_witness :
    chromaTool wEmptyStore wParams = ToolOutput.empty noDocsMessage
      { category := wParams.category, documentType := wParams.documentType,
        tags := wParams.tags, scoreThreshold := appliedThreshold wParams } ∧
    chromaTool wEmptyStore wParams ≠ ToolOutput.failure "boom" :=
  ⟨empty_result_not_error.1 wEmptyStore wParams (by decide),
   empty_result_not_error.2 wEmptyStore wParams ("boom")⟩

/-- C5: the tool requests exactly `k * 3` candidates from the store (its
output depends only on that prefix of the store's answer), truncates the
surviving candidates to at most `k` results, and preserves the store's
ascending-score order. -/
theorem overfetch_and_truncation :
    ∀ (store store2 : String → Nat → List (StoredDoc × ℚ)) (p : ChromaParams),
    chromaFetchCount p = appliedK p * 3 ∧
    (store p.query (appliedK p * 3) = store2 p.query (appliedK p * 3) →
      chromaTool store p = chromaTool store2 p) ∧
    (toolResults (chromaTool store p)).length ≤ appliedK p ∧
    (List.Pairwise (fun a b => a.2 ≤ b.2) (store p.query (chromaFetchCount p)) →
      List.Pairwise (fun a b => a ≤ b)
        ((toolResults (chromaTool store p)).map (fun r => r.similarityScore))) := by
  intro store store2 p
  refine ⟨rfl, ?_, ?_, ?_⟩
  · intro h
    unfold chromaTool chromaFetchCount
    rw [h]
  · rw [toolResults_chromaTool, formatResults_length]
    unfold pipelineDocs
    rw [List.length_take]
    exact min_le_left _ _
  · intro hsort
    rw [toolResults_chromaTool, formatResults_scores, List.pairwise_map]
    unfold pipelineDocs scoreFilter
    exact ((hsort.sublist (List.filter_sublist _)).sublist
      (List.filter_sublist _)).sublist (List.take_sublist _ _)

/-- Witness for C5 at a concrete one-chunk store (the store agreement and
sortedness hypotheses discharged there). -/
theorem overfetch_and_truncation_witness :
    chromaTool wStore wParams = chromaTool wStore wParams ∧
    (toolResults (chromaTool wStore wParams)).length ≤ appliedK wParams ∧
    List.Pairwise (fun a b => a ≤ b)
      ((toolResults (chromaTool wStore wParams)).map (fun r => r.similarityScore)) :=
  ⟨(overfetch_and_truncation wStore wStore wParams).2.1 rfl,
   (overfetch_and_truncation wStore wStore wParams).2.2.1,
   (overfetch_and_truncation wStore wStore wParams).2.2.2 (by simp [wStore])⟩

/-- C6: a result of the retrieval tool always satisfies every supplied
metadata predicate: exact category match, exact documentType match, and a
non-empty intersection with the supplied tag list. -/
theorem metadata_filter_predicates :
    ∀ (store : String → Nat → List (StoredDoc × ℚ)) (p : ChromaParams)
      (r : ResultEntry), r ∈ toolResults (chromaTool store p) →
    (∀ c, p.category = some c → c ≠ "" → r.category = c) ∧
    (∀ ty, p.documentType = some ty → ty ≠ "" → r.documentType = ty) ∧
    (∀ ts, p.tags = some ts → ts ≠ [] → ∃ tag, tag ∈ ts ∧ tag ∈ r.tags) := by
  intro store p r hr
  rw [toolResults_chromaTool] at hr
  obtain ⟨j, ds, hmem, heq⟩ := mem_formatResults _ _ _ hr
  have hpass := (mem_pipelineDocs hmem).2.2
  unfold passDocFilters at hpass
  simp only [Bool.and_eq_true] at hpass
  obtain ⟨⟨⟨-, hcat⟩, hty⟩, htags⟩ := hpass
  subst heq
  refine ⟨?_, ?_, ?_⟩
  · intro c hc hcne
    rw [hc] at hcat
    simp only [Bool.or_eq_true, beq_iff_eq] at hcat
    rcases hcat with h | h
    · exact absurd h hcne
    · simpa [formatResult] using h
  · intro ty0 hty0 htyne
    rw [hty0] at hty
    simp only [Bool.or_eq_true, beq_iff_eq] at hty
    rcases hty with h | h
    · exact absurd h htyne
    · simpa [formatResult] using h
  · intro ts hts htsne
    rw [hts] at htags
    simp only [Bool.or_eq_true] at htags
    rcases htags with h | h
    · exact absurd (List.isEmpty_iff.mp h) htsne
    · obtain ⟨tag, htagmem, hcon⟩ := List.any_eq_true.mp h
      refine ⟨tag, htagmem, ?_⟩
      simpa [formatResult] using List.elem_iff.mp hcon

/-- Witness for C6 at a store whose single chunk matches all three
supplied filters. -/
theorem metadata_filter_predicates_witness :
    w2Entry.category = "Technology" ∧ w2Entry.documentType = "report" ∧
    (∃ tag, tag ∈ ["x"] ∧ tag ∈ w2Entry.tags) :=
  have h := metadata_filter_predicates w2Store w2Params w2Entry (by decide)
  ⟨h.1 "Technology" rfl (by decide), h.2.1 "report" rfl (by decide),
   h.2.2 ["x"] rfl (by decide)⟩

/-- C7: the tier cutoffs written `mkRat 3 10` and `mkRat 5 10` in this
embedding are exactly the source decimals 0.3 and 0.5, every surviving
chunk appears in the tool's result (the tier never excludes a chunk:
contents and scores of the results equal those of the filter pipeline),
and each result's tier is high when score is at most 0.3, medium when it
is above 0.3 but at most 0.5, and low otherwise. -/
theorem relevance_tier_classification :
    ∀ (store : String → Nat → List (StoredDoc × ℚ)) (p : ChromaParams),
    (mkRat 3 10 = (0.3 : ℚ) ∧ mkRat 5 10 = (0.5 : ℚ)) ∧
    ((toolResults (chromaTool store p)).map (fun r => (r.content, r.similarityScore)) =
      (pipelineDocs p (store p.query (chromaFetchCount p))).map
        (fun ds => (ds.1.pageContent, ds.2))) ∧
    ∀ r, r ∈ toolResults (chromaTool store p) →
      (r.similarityScore ≤ mkRat 3 10 → r.relevance = "high") ∧
      (¬ r.similarityScore ≤ mkRat 3 10 → r.similarityScore ≤ mkRat 5 10 →
        r.relevance = "medium") ∧
      (¬ r.similarityScore ≤ mkRat 5 10 → r.relevance = "low") := by
  intro store p
  refine ⟨⟨by norm_num [Rat.mkRat_eq_div], by norm_num [Rat.mkRat_eq_div]⟩, ?_, ?_⟩
  · rw [toolResults_chromaTool, formatResults_proj]
  · intro r hr
    rw [toolResults_chromaTool] at hr
    obtain ⟨j, ds, -, heq⟩ := mem_formatResults _ _ _ hr
    subst heq
    have hsc : (formatResult j ds).similarityScore = ds.2 := rfl
    have hrel : (formatResult j ds).relevance = relevanceTier ds.2 := rfl
    rw [hsc, hrel]
    unfold relevanceTier
    refine ⟨fun h3 => ?_, fun h3 h5 => ?_, fun h5 => ?_⟩
    · rw [if_pos h3]
    · rw [if_neg h3, if_pos h5]
    · have h3 : ¬ ds.2 ≤ mkRat 3 10 := fun h =>
        h5 (le_trans h (by norm_num [Rat.mkRat_eq_div]))
      rw [if_neg h3, if_neg h5]

/-- Witness for C7 at a concrete result whose score 1 exceeds both
cutoffs, so its tier is low. -/
theorem relevance_tier_classification_witness :
    wEntry.relevance = "low" :=
  ((relevance_tier_classification wStore wParams).2.2 wEntry
    (by decide)).2.2 (by decide)

/-- A chunk passing the tool's document filter is not the init sentinel. -/
theorem passDocFilters_not_init {p : ChromaParams} {d : StoredDoc}
    (h : passDocFilters p d = true) : d.source ≠ "init" := by
  unfold passDocFilters at h
  simp only [Bool.and_eq_true] at h
  have h0 := h.1.1.1
  simp only [Bool.not_eq_true', Bool.or_eq_false_iff] at h0
  exact fun he => by simp [he] at h0

/-- C2 counterexample: on a store holding only the init sentinel chunk the
debug listing reports `totalCount = 1`, so the sentinel is counted in a
count the listing reports (exclusion would require 0); `documentsShown`
by contrast is 0. -/
theorem sentinel_count_counterexample :
    (debugChromaDB [initRawDoc]).totalCount = 1 ∧
    (debugChromaDB [initRawDoc]).documentsShown = 0 := by decide

/-- C2 amended: the init sentinel never appears in the plain RAG sources,
never appears in the retrieval tool's results, and never appears in the
debug listing's documents, whose `documentsShown` count covers only the
listed (sentinel-free) documents; but the listing's `totalCount` is the
raw store size, which does include the sentinel. -/
theorem sentinel_exclusion_amended :
    (∀ (search : String → Nat → List RagDoc) (llm : String → String → String)
        (q : String) (d : RagDoc),
        d ∈ (executeRAG search llm q).1.sources → d.source ≠ "init") ∧
    (∀ (store : String → Nat → List (StoredDoc × ℚ)) (p : ChromaParams)
        (r : ResultEntry), r ∈ toolResults (chromaTool store p) →
        r.source ≠ "init") ∧
    (∀ (store : List RawStoreDoc) (d : RawStoreDoc),
        d ∈ (debugChromaDB store).documents → d.msource ≠ some ("init")) ∧
    (∀ store : List RawStoreDoc,
        (debugChromaDB store).documentsShown =
          ((debugChromaDB store).documents).length) ∧
    (∀ store : List RawStoreDoc, (debugChromaDB store).totalCount = store.length) := by
  refine ⟨?_, ?_, ?_, fun store => rfl, fun store => rfl⟩
  · intro search llm q d hd
    unfold executeRAG at hd
    by_cases hemp : ((search q 4).filter (fun d => !(d.source == "init"))).isEmpty
    · simp [hemp] at hd
    · simp only [hemp, if_false] at hd
      have h2 := (List.mem_filter.mp hd).2
      simpa using h2
  · intro store p r hr
    rw [toolResults_chromaTool] at hr
    obtain ⟨j, ds, hmem, heq⟩ := mem_formatResults _ _ _ hr
    have hsrc := passDocFilters_not_init (mem_pipelineDocs hmem).2.2
    subst heq
    simpa [formatResult] using hsrc
  · intro store d hd
    have h2 := (List.mem_filter.mp hd).2
    simpa using h2

/-- Witness for C2 amended at concrete stores: a real chunk retrieved by
both pipelines and listed by the debug endpoint is not the sentinel. -/
theorem sentinel_exclusion_amended_witness :
    ("doc.txt" : String) ≠ "init" ∧ wEntry.source ≠ "init" ∧
    goodRawDoc.msource ≠ some ("init") :=
  ⟨sentinel_exclusion_amended.1 wRagSearch wLlm ("anything")
      { pageContent := "The sky is blue.", source := "doc.txt" } (by decide),
   sentinel_exclusion_amended.2.1 wStore wParams wEntry (by decide),
   sentinel_exclusion_amended.2.2.1 [goodRawDoc, initRawDoc] goodRawDoc (by decide)⟩

/-- C3: when similarity search, after dropping the init chunk, leaves no
documents, the RAG pipeline returns the fixed refusal answer with an
empty sources list and performs zero LLM invocations. -/
theorem empty_context_refusal :
    ∀ (search : String → Nat → List RagDoc) (llm : String → String → String)
      (q : String),
    (search q 4).filter (fun d => !(d.source == "init")) = [] →
    executeRAG search llm q = ({ answer := noDocsAnswer, sources := [] }, 0) := by
  intro search llm q h
  unfold executeRAG
  simp [h]

/-- Witness for C3 at a store holding only the sentinel chunk. -/
theorem empty_context_refusal_witness :
    executeRAG wSentinelRagSearch wLlm ("anything") =
      ({ answer := noDocsAnswer, sources := [] }, 0) :=
  empty_context_refusal wSentinelRagSearch wLlm ("anything") (by decide)

/-- The polling loop performs at most `fuel` in-loop retrieve calls. -/
theorem assistantLoop_count_le (stream : Nat → RunStatus) :
    ∀ (fuel i : Nat), (assistantLoop stream i fuel).2 ≤ fuel := by
  intro fuel
  induction fuel with
  | zero =>
    intro i
    unfold assistantLoop
    split <;> simp
  | succ f ih =>
    intro i
    unfold assistantLoop
    split
    · simp
    · split
      · simp
      · simpa using Nat.succ_le_succ (ih (i + 1))

/-- If no observed status is completed or a terminal failure, the loop
exhausts its budget and times out. -/
theorem assistantLoop_timeout (stream : Nat → RunStatus)
    (h : ∀ n, stream n ≠ RunStatus.completed ∧
      isTerminalFailure (stream n) = false) :
    ∀ (fuel i : Nat), (assistantLoop stream i fuel).1 = AssistantOutcome.timedOut := by
  intro fuel
  induction fuel with
  | zero =>
    intro i
    unfold assistantLoop
    rw [if_neg (h i).1]
  | succ f ih =>
    intro i
    unfold assistantLoop
    rw [if_neg (h i).1]
    rw [(h i).2]
    simpa using ih (i + 1)

/-- C4: for every status stream the assistant tool performs at most 30
poll attempts, and when the run never reaches a completed (or terminal
failure) status within the budget the tool returns the fixed timeout
message as its result value. -/
theorem assistant_poll_bounded :
    ∀ stream : Nat → RunStatus,
    (assistantToolReply stream).2 ≤ maxPollAttempts ∧
    ((∀ n, stream n ≠ RunStatus.completed ∧
        isTerminalFailure (stream n) = false) →
      (assistantToolReply stream).1 = AssistantReply.message timeoutMessage) := by
  intro stream
  constructor
  · have hle := assistantLoop_count_le stream maxPollAttempts 0
    unfold assistantToolReply runAssistantTool
    rcases hr : assistantLoop stream 0 maxPollAttempts with ⟨o, n⟩
    rw [hr] at hle
    cases o <;> simpa using hle
  · intro h
    have ht := assistantLoop_timeout stream h maxPollAttempts 0
    unfold assistantToolReply runAssistantTool
    rcases hr : assistantLoop stream 0 maxPollAttempts with ⟨o, n⟩
    rw [hr] at ht
    simp only at ht
    subst ht
    rfl

/-- Witness for C4 at a run that stays in progress forever: the reply is
the timeout message after the full attempt budget. -/
theorem assistant_poll_bounded_witness :
    (assistantToolReply (fun _ => RunStatus.inProgress)).2 ≤ maxPollAttempts ∧
    (assistantToolReply (fun _ => RunStatus.inProgress)).1 =
      AssistantReply.message timeoutMessage :=
  ⟨(assistant_poll_bounded (fun _ => RunStatus.inProgress)).1,
   (assistant_poll_bounded (fun _ => RunStatus.inProgress)).2
     (fun n => ⟨by decide, by decide⟩)⟩

/-- Splitting a comma-free character list yields one field: the
accumulator followed by the list. -/
theorem splitCommaAux_no_comma :
    ∀ (cs acc : List Char), (',' ∈ cs → False) →
    splitCommaAux cs acc = [acc.reverse ++ cs] := by
  intro cs
  induction cs with
  | nil => intro acc h; simp [splitCommaAux]
  | cons c cs ih =>
    intro acc h
    have hcne : c ≠ ',' := fun he => h (by rw [he]; exact List.mem_cons_self _ _)
    have hrec := ih (c :: acc) (fun hm => h (List.mem_cons_of_mem _ hm))
    simp [splitCommaAux, hcne, hrec]

/-- Splitting a list that starts with a comma-free field followed by a
comma emits that field and continues on the remainder. -/
theorem splitCommaAux_append :
    ∀ (cs rest acc : List Char), (',' ∈ cs → False) →
    splitCommaAux (cs ++ ',' :: rest) acc =
      (acc.reverse ++ cs) :: splitCommaAux rest [] := by
  intro cs
  induction cs with
  | nil => intro rest acc h; simp [splitCommaAux]
  | cons c cs ih =>
    intro rest acc h
    have hcne : c ≠ ',' := fun he => h (by rw [he]; exact List.mem_cons_self _ _)
    have hrec := ih rest (c :: acc) (fun hm => h (List.mem_cons_of_mem _ hm))
    simp [splitCommaAux, hcne, hrec]

/-- Joining a non-empty list of non-empty strings is a non-empty string. -/
theorem jsJoinComma_ne_empty :
    ∀ (l : List String), l ≠ [] → (∀ t ∈ l, t ≠ "") → jsJoinComma l ≠ "" := by
  intro l
  match l with
  | [] => intro h _; exact absurd rfl h
  | [t] =>
    intro _ h
    simpa [jsJoinComma] using h t (List.mem_singleton_self t)
  | t :: t2 :: ts =>
    intro _ _ he
    have hdata := congrArg String.data he
    simp only [jsJoinComma] at hdata
    simp [String.data_append] at hdata

/-- Round trip of the source's tag serialization: joining on commas and
splitting back returns the original list, for tag lists whose elements
are non-empty and comma-free (the empty list maps to the empty string and
back to the empty list). -/
theorem split_join_comma :
    ∀ (l : List String), (∀ t ∈ l, t ≠ "" ∧ (',' ∈ t.data → False)) →
    jsSplitTags (jsJoinComma l) = l := by
  intro l
  induction l with
  | nil => intro _; rfl
  | cons t ts ih =>
    intro h
    have ht := h t (List.mem_cons_self t ts)
    cases ts with
    | nil =>
      show jsSplitTags (jsJoinComma [t]) = [t]
      have hjoin : jsJoinComma [t] = t := rfl
      rw [hjoin]
      unfold jsSplitTags
      rw [if_neg ht.1]
      unfold jsSplitComma
      rw [splitCommaAux_no_comma t.data [] ht.2]
      simp
    | cons t2 ts2 =>
      have hts : ∀ u ∈ t2 :: ts2, u ≠ "" ∧ (',' ∈ u.data → False) :=
        fun u hu => h u (List.mem_cons_of_mem _ hu)
      have hne2 : jsJoinComma (t2 :: ts2) ≠ "" :=
        jsJoinComma_ne_empty _ (by simp) (fun u hu => (hts u hu).1)
      have hjoin : jsJoinComma (t :: t2 :: ts2) =
          t ++ "," ++ jsJoinComma (t2 :: ts2) := rfl
      rw [hjoin]
      have hne : (t ++ "," ++ jsJoinComma (t2 :: ts2)) ≠ "" := by
        intro he
        have hdata := congrArg String.data he
        simp [String.data_append] at hdata
      unfold jsSplitTags
      rw [if_neg hne]
      unfold jsSplitComma
      have hdata2 : (t ++ "," ++ jsJoinComma (t2 :: ts2)).data =
          t.data ++ ',' :: (jsJoinComma (t2 :: ts2)).data := by
        simp [String.data_append]
      rw [hdata2, splitCommaAux_append t.data _ [] ht.2]
      have hih := ih hts
      unfold jsSplitTags at hih
      rw [if_neg hne2] at hih
      unfold jsSplitComma at hih
      simp [hih]

/-- C10: a chunk whose stored tag string is the ingest route's
serialization of a tag list with non-empty, comma-free elements yields
exactly that list back in retrieval formatting; in particular the empty
tag list yields the empty list, not a list holding the empty string. -/
theorem tags_roundtrip :
    ∀ (l : List String) (d : StoredDoc),
    (∀ t ∈ l, t ≠ "" ∧ (',' ∈ t.data → False)) →
    d.tags = some (ingestTagsString (some l)) →
    docTags d = l ∧ jsSplitTags (ingestTagsString (some l)) = l := by
  intro l d h hd
  have hs : jsSplitTags (jsJoinComma l) = l := split_join_comma l h
  have hi : ingestTagsString (some l) = jsJoinComma l := rfl
  constructor
  · unfold docTags
    rw [hd]
    simpa [hi] using hs
  · rw [hi]
    exact hs

/-- Witness for C10 at the tag list with elements a and b. -/
theorem tags_roundtrip_witness :
    docTags wTagDoc = ["a", "b"] ∧
    jsSplitTags (ingestTagsString (some ["a", "b"])) = ["a", "b"] :=
  tags_roundtrip ["a", "b"] wTagDoc (by decide) (by decide)
